import Mathlib

/-!
# Verification of `keep_alive.py` (Keep-Windows-Alive)

A shallow embedding of `src/keep_alive.py`.  The script's side effects
(Windows API calls, console prints, sleeps) are recorded as an event trace;
the OS is an oracle supplying the results of the fallible calls
(`SetThreadExecutionState`, cursor access).  The infinite `while True` loop
is run on fuel (a number of cycles), and delivery of SIGINT/SIGTERM is a
parameter saying at which program point (if any) the installed handler
`on_exit` fires.  Python's `sys.exit(c)` is modelled as raising
`SystemExit c`; `try/finally` is modelled explicitly in `mainRun`.
-/

namespace KeepAlive

/-- Windows execution state flag (line 19 of the source). -/
def ES_CONTINUOUS : Nat := 0x80000000

/-- Windows execution state flag (line 20 of the source). -/
def ES_SYSTEM_REQUIRED : Nat := 0x00000001

/-- Windows execution state flag (line 21): keeps screen on too. -/
def ES_DISPLAY_REQUIRED : Nat := 0x00000002

/-- The flag combination `prevent_sleep` passes to `SetThreadExecutionState`
(lines 25-27 of the source). -/
def assertFlags : Nat := ES_CONTINUOUS ||| ES_SYSTEM_REQUIRED ||| ES_DISPLAY_REQUIRED

/-- Duration of the pause inside `nudge_mouse` (`time.sleep(0.05)`, line 46),
in seconds. -/
def nudgePause : Rat := 1 / 20

/-- Observable events of a run: Windows API calls, console prints and sleeps. -/
inductive Event where
  | setExecState (flags : Nat)
  | getCursorPos
  | setCursorPos (x y : Int)
  | sleepSecs (secs : Rat)
  | print (msg : String)
  deriving DecidableEq, Repr

/-- Python exceptions that can escape a statement in this script:
`SystemExit` (raised by `sys.exit`) and `ValueError`
(raised by `time.sleep` on a negative argument). -/
inductive PyExn where
  | systemExit (code : Nat)
  | valueError
  deriving DecidableEq, Repr

/-- Result of executing a piece of Python: normal completion or an escaping
exception. -/
inductive PyResult (α : Type) where
  | ok (a : α)
  | exn (e : PyExn)
  deriving DecidableEq, Repr

/-- How the process as a whole ends (within the observed fuel):
`exited c` — a `SystemExit c` reached the top (interpreter exit status `c`);
`crashed e` — an uncaught non-`SystemExit` exception (interpreter exit status 1);
`stillRunning` — the loop was still going when the fuel ran out. -/
inductive Outcome where
  | exited (code : Nat)
  | crashed (e : PyExn)
  | stillRunning
  deriving DecidableEq, Repr

/-- The process exit status an outcome produces, `none` while still running.
An uncaught exception makes the Python interpreter exit with status 1. -/
def Outcome.exitStatus : Outcome → Option Nat
  | .exited c => some c
  | .crashed _ => some 1
  | .stillRunning => none

/-- OS oracle: results of the external calls.
`assertResult n` is what `SetThreadExecutionState(assertFlags)` returns on its
`n`-th invocation (0 means failure, line 28);
`releaseResult n` is what the `n`-th `SetThreadExecutionState(ES_CONTINUOUS)`
call in `allow_sleep` returns (its value is discarded by the script);
`nudgeExn n` is `some msg` when the `n`-th invocation of `nudge_mouse` hits an
exception rendered as `msg` (e.g. no display session), `none` when the cursor
calls succeed. -/
structure OS where
  assertResult : Nat → Nat
  releaseResult : Nat → Nat
  nudgeExn : Nat → Option String

/-- Interpreter state threaded through the run: the event trace so far, the
OS cursor position, and call counters used to index the oracle.
`releaseCalls` counts invocations of `allow_sleep`, `assertCalls` those of
`prevent_sleep`'s API call, `nudges` those of `nudge_mouse`. -/
structure World where
  trace : List Event
  cursor : Int × Int
  assertCalls : Nat
  nudges : Nat
  releaseCalls : Nat
  deriving DecidableEq, Repr

/-- Run configuration from `argparse` (lines 52-57): `--mouse` flag and
`--interval` seconds (`type=int`, arbitrary integer, no validation). -/
structure Args where
  mouse : Bool
  interval : Int
  deriving DecidableEq, Repr

/-- Console message printed when `prevent_sleep` fails (line 29). -/
def msgError : String := "[ERROR] SetThreadExecutionState failed. Are you on Windows?"

/-- Console message printed on startup (line 69). -/
def msgActive : String := "[INFO] Keep-alive active. Press Ctrl+C to stop."

/-- Console message printed when `--mouse` is set (line 71). -/
def msgMouse (interval : Int) : String :=
  "[INFO] Mouse nudge enabled every " ++ toString interval ++ "s."

/-- Console message printed by the signal handler `on_exit` (line 61). -/
def msgRestoring : String := "\n[INFO] Restoring normal sleep settings..."

/-- Console warning printed when `nudge_mouse` catches an exception (line 49). -/
def msgWarn (e : String) : String := "[WARN] Mouse nudge failed: " ++ e

/-- Function `prevent_sleep()` (lines 23-30): call
`SetThreadExecutionState(ES_CONTINUOUS | ES_SYSTEM_REQUIRED | ES_DISPLAY_REQUIRED)`;
if the result is 0, print an error and `sys.exit(1)` (modelled as raising
`SystemExit 1`). -/
def prevent_sleep (os : OS) (w : World) : PyResult Unit × World :=
  let result := os.assertResult w.assertCalls
  let w1 : World := { w with
    trace := w.trace ++ [.setExecState assertFlags]
    assertCalls := w.assertCalls + 1 }
  if result = 0 then
    (.exn (.systemExit 1), { w1 with trace := w1.trace ++ [.print msgError] })
  else
    (.ok (), w1)

/-- Function `allow_sleep()` (lines 32-34): call `SetThreadExecutionState(ES_CONTINUOUS)`
and discard its result. -/
def allow_sleep (os : OS) (w : World) : World :=
  let _result := os.releaseResult w.releaseCalls
  { w with
    trace := w.trace ++ [.setExecState ES_CONTINUOUS]
    releaseCalls := w.releaseCalls + 1 }

/-- Function `nudge_mouse()` (lines 36-49): inside `try`, read the cursor position,
move one pixel right, `time.sleep(0.05)`, move back; any `Exception` is caught
and reported as a warning.  The oracle decides whether this invocation's
cursor calls raise. -/
def nudge_mouse (os : OS) (w : World) : World :=
  let n := w.nudges
  let w1 : World := { w with nudges := n + 1 }
  match os.nudgeExn n with
  | some e => { w1 with trace := w1.trace ++ [.print (msgWarn e)] }
  | none =>
    let (x, y) := w1.cursor
    { w1 with
      trace := w1.trace ++
        [.getCursorPos, .setCursorPos (x + 1) y, .sleepSecs nudgePause,
         .setCursorPos x y]
      cursor := (x, y) }

/-- Handler `on_exit(sig, frame)` (lines 60-63): print the restoring message, call
`allow_sleep()`, then `sys.exit(0)` — i.e. raise `SystemExit 0` at the point
where the main flow of control was interrupted. -/
def on_exit (os : OS) (w : World) : PyResult Unit × World :=
  let w1 : World := { w with trace := w.trace ++ [.print msgRestoring] }
  (.exn (.systemExit 0), allow_sleep os w1)

/-- The loop stages at which a signal can be delivered within one cycle:
just before the re-assertion (line 76), just before the nudge (line 79,
only present when `--mouse` is set), or during the `time.sleep` (line 81). -/
inductive Stage where
  | reassert
  | nudgeStage
  | sleeping
  deriving DecidableEq, Repr

/-- When SIGINT/SIGTERM arrives: after the handlers are installed but before
the `try` block (`preLoop`), at a given stage of a given 0-based loop cycle
(`inLoop`), or not at all during the observed run (`never`). -/
inductive SigTime where
  | preLoop
  | inLoop (cycle : Nat) (stage : Stage)
  | never
  deriving DecidableEq, Repr

/-- The `while True` loop body (lines 74-81), iterated `fuel` times.
Each cycle: (possible signal) `prevent_sleep()`; if `--mouse` (possible
signal) `nudge_mouse()`; `time.sleep(interval)` — recorded, raising
`ValueError` if the interval is negative, interruptible by a signal
otherwise.  `.ok ()` means the fuel ran out with the loop still going;
`.exn e` is an exception escaping the loop body. -/
def runLoop (os : OS) (cfg : Args) (sig : SigTime) :
    Nat → Nat → World → PyResult Unit × World
  | 0, _, w => (.ok (), w)
  | fuel + 1, cycle, w =>
    if sig = .inLoop cycle .reassert then on_exit os w
    else
      match prevent_sleep os w with
      | (.exn e, w1) => (.exn e, w1)
      | (.ok _, w1) =>
        let afterNudge : PyResult Unit × World :=
          if cfg.mouse then
            if sig = .inLoop cycle .nudgeStage then on_exit os w1
            else (.ok (), nudge_mouse os w1)
          else (.ok (), w1)
        match afterNudge with
        | (.exn e, w2) => (.exn e, w2)
        | (.ok _, w2) =>
          let w3 : World := { w2 with
            trace := w2.trace ++ [.sleepSecs (cfg.interval : Rat)] }
          if cfg.interval < 0 then (.exn .valueError, w3)
          else if sig = .inLoop cycle .sleeping then on_exit os w3
          else runLoop os cfg sig fuel (cycle + 1) w3

/-- Initial interpreter state: empty trace, cursor at `(x, y)`. -/
def initWorld (x y : Int) : World :=
  { trace := [], cursor := (x, y), assertCalls := 0, nudges := 0, releaseCalls := 0 }

/-- Function `main()` after argument parsing (lines 59-83): install the handlers,
(possible pre-loop signal), startup `prevent_sleep()` — outside the
`try`/`finally`, so a `SystemExit` here propagates without running the
`finally` — the two informational prints, then `try: <loop> finally:
allow_sleep()`.  An exception escaping the `try` runs `allow_sleep()` and
then propagates to the top. -/
def mainRun (os : OS) (cfg : Args) (sig : SigTime) (fuel : Nat) (x y : Int) :
    Outcome × World :=
  let w := initWorld x y
  if sig = .preLoop then
    match on_exit os w with
    | (.exn (.systemExit c), w1) => (.exited c, w1)
    | (.exn .valueError, w1) => (.crashed .valueError, w1)
    | (.ok _, w1) => (.stillRunning, w1)
  else
    match prevent_sleep os w with
    | (.exn (.systemExit c), w1) => (.exited c, w1)
    | (.exn .valueError, w1) => (.crashed .valueError, w1)
    | (.ok _, w1) =>
      let w2 : World := { w1 with trace := w1.trace ++ [.print msgActive] }
      let w3 : World :=
        if cfg.mouse then
          { w2 with trace := w2.trace ++ [.print (msgMouse cfg.interval)] }
        else w2
      match runLoop os cfg sig fuel 0 w3 with
      | (.ok _, w4) => (.stillRunning, w4)
      | (.exn (.systemExit c), w4) => (.exited c, allow_sleep os w4)
      | (.exn .valueError, w4) => (.crashed .valueError, allow_sleep os w4)

/-! ## Derived descriptions of traces -/

/-- Events emitted before the loop is entered, when the startup
`prevent_sleep` succeeds: the API call, the activity message, and the mouse
message when `--mouse` is set (lines 68-71). -/
def startupTrace (cfg : Args) : List Event :=
  [.setExecState assertFlags, .print msgActive] ++
    (if cfg.mouse then [.print (msgMouse cfg.interval)] else [])

/-- Events emitted by the `n`-th invocation of `nudge_mouse` with the cursor
at `c`: a warning on failure, the get/move/pause/restore sequence on
success. -/
def nudgeTrace (os : OS) (n : Nat) (c : Int × Int) : List Event :=
  match os.nudgeExn n with
  | some e => [.print (msgWarn e)]
  | none =>
    [.getCursorPos, .setCursorPos (c.1 + 1) c.2, .sleepSecs nudgePause,
     .setCursorPos c.1 c.2]

/-- Events emitted by one clean loop cycle (no signal, re-assertion
succeeds): re-assert, optional nudge (the `n`-th), sleep for the interval. -/
def cycleTrace (os : OS) (cfg : Args) (n : Nat) (c : Int × Int) : List Event :=
  .setExecState assertFlags ::
    ((if cfg.mouse then nudgeTrace os n c else []) ++
      [.sleepSecs (cfg.interval : Rat)])

/-- Events of `fuel` consecutive clean cycles, the first nudge being the
`n`-th. -/
def cyclesTrace (os : OS) (cfg : Args) (c : Int × Int) : Nat → Nat → List Event
  | _, 0 => []
  | n, fuel + 1 =>
      cycleTrace os cfg n c ++
        cyclesTrace os cfg c (if cfg.mouse then n + 1 else n) fuel

/-- Events of one loop cycle when the cursor calls succeed, oracle-free. -/
def cycleEvents (cfg : Args) (c : Int × Int) : List Event :=
  .setExecState assertFlags ::
    ((if cfg.mouse then
        [.getCursorPos, .setCursorPos (c.1 + 1) c.2, .sleepSecs nudgePause,
         .setCursorPos c.1 c.2]
      else []) ++ [.sleepSecs (cfg.interval : Rat)])

/-- The state reached by one clean loop cycle from `w`. -/
def cycleStep (os : OS) (cfg : Args) (w : World) : World :=
  { w with
    trace := w.trace ++ cycleTrace os cfg w.nudges w.cursor
    assertCalls := w.assertCalls + 1
    nudges := w.nudges + (if cfg.mouse then 1 else 0) }

/-- Modelled from the spec: the flag combination §3/§4.1 describe —
continuous + system-required + *optionally* display-required.  Stated only to
compare with the flag combination the source actually passes. -/
def specAssertFlags (displayRequired : Bool) : Nat :=
  ES_CONTINUOUS ||| ES_SYSTEM_REQUIRED |||
    (if displayRequired then ES_DISPLAY_REQUIRED else 0)

/-- An OS on which every call succeeds. -/
def osOK : OS := ⟨fun _ => 1, fun _ => 1, fun _ => none⟩

/-- An OS on which `SetThreadExecutionState(assertFlags)` always fails. -/
def osFail : OS := ⟨fun _ => 0, fun _ => 1, fun _ => none⟩

/-- An OS on which the release call always reports failure. -/
def osReleaseFail : OS := ⟨fun _ => 1, fun _ => 0, fun _ => none⟩

/-- An OS on which the first nudge raises (message "no display") and
everything else succeeds. -/
def osNudgeFail : OS :=
  ⟨fun _ => 1, fun _ => 1, fun n => if n = 0 then some "no display" else none⟩

/-! ## Message disambiguation -/

/-- A nudge warning is never the fatal startup error message. -/
theorem msgWarn_ne_msgError (e : String) : msgWarn e ≠ msgError := by
  intro h
  have h2 : (msgWarn e).data = msgError.data := by rw [h]
  simp only [msgWarn, msgError, String.data_append] at h2
  simp [List.cons_append] at h2

/-- The mouse-enabled info line is never the fatal startup error message,
whatever the interval prints as. -/
theorem msgMouse_ne_msgError (i : Int) : msgMouse i ≠ msgError := by
  intro h
  have h2 : (msgMouse i).data = msgError.data := by rw [h]
  simp only [msgMouse, msgError, String.data_append] at h2
  simp [List.cons_append] at h2

/-- The fatal error message never appears among the events of a nudge. -/
theorem msgError_not_mem_nudgeTrace (os : OS) (n : Nat) (c : Int × Int) :
    Event.print msgError ∉ nudgeTrace os n c := by
  unfold nudgeTrace
  cases h : os.nudgeExn n with
  | some e =>
    simp only [List.mem_singleton]
    intro hEq
    exact msgWarn_ne_msgError e (Event.print.inj hEq).symm
  | none => simp

/-- The fatal error message never appears among the events of a clean cycle. -/
theorem msgError_not_mem_cycleTrace (os : OS) (cfg : Args) (n : Nat)
    (c : Int × Int) : Event.print msgError ∉ cycleTrace os cfg n c := by
  unfold cycleTrace
  rcases cfg.mouse with _ | _ <;>
    simp [msgError_not_mem_nudgeTrace]

/-- The fatal error message never appears in the startup trace. -/
theorem msgError_not_mem_startupTrace (cfg : Args) :
    Event.print msgError ∉ startupTrace cfg := by
  unfold startupTrace
  rcases cfg.mouse with _ | _
  · simp only [Bool.false_eq_true, if_false, List.append_nil]
    decide
  · intro hMem
    simp only [if_true, List.mem_append] at hMem
    rcases hMem with h | h
    · revert h; decide
    · simp only [List.mem_singleton] at h
      exact msgMouse_ne_msgError cfg.interval (Event.print.inj h).symm

/-! ## Shape lemmas for the primitive calls -/

theorem allow_sleep_eq (os : OS) (w : World) :
    allow_sleep os w =
      { w with
        trace := w.trace ++ [.setExecState ES_CONTINUOUS]
        releaseCalls := w.releaseCalls + 1 } := rfl

theorem prevent_sleep_ok (os : OS) (w : World)
    (h : os.assertResult w.assertCalls ≠ 0) :
    prevent_sleep os w =
      (.ok (), { w with
        trace := w.trace ++ [.setExecState assertFlags]
        assertCalls := w.assertCalls + 1 }) := by
  simp [prevent_sleep, h]

theorem prevent_sleep_fail (os : OS) (w : World)
    (h : os.assertResult w.assertCalls = 0) :
    prevent_sleep os w =
      (.exn (.systemExit 1), { w with
        trace := w.trace ++ [.setExecState assertFlags, .print msgError]
        assertCalls := w.assertCalls + 1 }) := by
  simp [prevent_sleep, h]

theorem nudge_mouse_eq (os : OS) (w : World) :
    nudge_mouse os w =
      { w with
        trace := w.trace ++ nudgeTrace os w.nudges w.cursor
        nudges := w.nudges + 1 } := by
  cases h : os.nudgeExn w.nudges <;>
    simp [nudge_mouse, nudgeTrace, h]

theorem on_exit_eq (os : OS) (w : World) :
    on_exit os w =
      (.exn (.systemExit 0), { w with
        trace := w.trace ++ [.print msgRestoring, .setExecState ES_CONTINUOUS]
        releaseCalls := w.releaseCalls + 1 }) := by
  simp [on_exit, allow_sleep]

/-! ## Stepping lemmas for the loop -/

/-- One clean cycle: no signal checkpoint of this cycle fires, re-assertion
succeeds, interval non-negative. -/
theorem runLoop_succ_noSig (os : OS) (cfg : Args) (sig : SigTime) (fuel cycle : Nat)
    (w : World)
    (hA0 : os.assertResult w.assertCalls ≠ 0)
    (hI : ¬cfg.interval < 0)
    (h1 : sig ≠ .inLoop cycle .reassert)
    (h2 : cfg.mouse = true → sig ≠ .inLoop cycle .nudgeStage)
    (h3 : sig ≠ .inLoop cycle .sleeping) :
    runLoop os cfg sig (fuel + 1) cycle w =
      runLoop os cfg sig fuel (cycle + 1) (cycleStep os cfg w) := by
  conv_lhs => unfold runLoop
  rw [if_neg h1, prevent_sleep_ok os w hA0]
  rcases hm : cfg.mouse with _ | _
  · simp only [Bool.false_eq_true, if_false, hI, h3]
    unfold cycleStep cycleTrace
    simp [hm, List.append_assoc]
  · simp only [if_true, if_neg (h2 hm), hI, h3]
    rw [nudge_mouse_eq]
    unfold cycleStep cycleTrace
    simp [hm, List.append_assoc]

/-- A failing in-loop re-assertion raises `SystemExit 1` out of the loop
body after the error line. -/
theorem runLoop_succ_assertFail (os : OS) (cfg : Args) (sig : SigTime)
    (fuel cycle : Nat) (w : World)
    (h1 : sig ≠ .inLoop cycle .reassert)
    (hA0 : os.assertResult w.assertCalls = 0) :
    runLoop os cfg sig (fuel + 1) cycle w =
      (.exn (.systemExit 1), { w with
        trace := w.trace ++ [.setExecState assertFlags, .print msgError]
        assertCalls := w.assertCalls + 1 }) := by
  conv_lhs => unfold runLoop
  rw [if_neg h1, prevent_sleep_fail os w hA0]

/-- With a negative interval, the cycle's `time.sleep` raises `ValueError`
right after the cycle body ran (unless a signal checkpoint fired first). -/
theorem runLoop_succ_negative (os : OS) (cfg : Args) (sig : SigTime)
    (fuel cycle : Nat) (w : World)
    (h1 : sig ≠ .inLoop cycle .reassert)
    (h2 : cfg.mouse = true → sig ≠ .inLoop cycle .nudgeStage)
    (hA0 : os.assertResult w.assertCalls ≠ 0)
    (hI : cfg.interval < 0) :
    runLoop os cfg sig (fuel + 1) cycle w =
      (.exn .valueError, cycleStep os cfg w) := by
  conv_lhs => unfold runLoop
  rw [if_neg h1, prevent_sleep_ok os w hA0]
  rcases hm : cfg.mouse with _ | _
  · simp [hm, hI, cycleStep, cycleTrace, List.append_assoc]
  · simp [hm, if_neg (h2 hm), hI, nudge_mouse_eq, cycleStep, cycleTrace,
      List.append_assoc]

/-- A signal delivered at the re-assertion point runs the handler there. -/
theorem runLoop_hit_reassert (os : OS) (cfg : Args) (fuel cycle : Nat) (w : World) :
    runLoop os cfg (.inLoop cycle .reassert) (fuel + 1) cycle w = on_exit os w := by
  conv_lhs => unfold runLoop
  rw [if_pos rfl]

/-- A signal delivered at the nudge point (only reachable with `--mouse`)
runs the handler after the re-assertion. -/
theorem runLoop_hit_nudge (os : OS) (cfg : Args) (fuel cycle : Nat) (w : World)
    (hA0 : os.assertResult w.assertCalls ≠ 0) (hm : cfg.mouse = true) :
    runLoop os cfg (.inLoop cycle .nudgeStage) (fuel + 1) cycle w =
      on_exit os { w with
        trace := w.trace ++ [.setExecState assertFlags]
        assertCalls := w.assertCalls + 1 } := by
  conv_lhs => unfold runLoop
  rw [if_neg (by simp), prevent_sleep_ok os w hA0]
  simp only [hm, if_true, if_pos rfl, on_exit_eq]

/-- A signal delivered during the `time.sleep` runs the handler after the
whole cycle body has executed. -/
theorem runLoop_hit_sleeping (os : OS) (cfg : Args) (fuel cycle : Nat) (w : World)
    (hA0 : os.assertResult w.assertCalls ≠ 0) (hI : ¬cfg.interval < 0) :
    runLoop os cfg (.inLoop cycle .sleeping) (fuel + 1) cycle w =
      on_exit os (cycleStep os cfg w) := by
  conv_lhs => unfold runLoop
  rw [if_neg (by simp), prevent_sleep_ok os w hA0]
  rcases hm : cfg.mouse with _ | _ <;>
    simp [hm, hI, nudge_mouse_eq, on_exit_eq, cycleStep, cycleTrace,
      List.append_assoc]

/-- Master lemma for a signal-free stretch: with every re-assertion
succeeding and a non-negative interval, `fuel` cycles run cleanly,
appending `fuel` cycle blocks to the trace, performing one API assertion
per cycle and one nudge per cycle when `--mouse` is set, and never calling
`allow_sleep`. -/
theorem runLoop_never (os : OS) (cfg : Args)
    (hA : ∀ n, os.assertResult n ≠ 0) (hI : ¬cfg.interval < 0) :
    ∀ fuel cycle w, runLoop os cfg .never fuel cycle w =
      (.ok (), { w with
        trace := w.trace ++ cyclesTrace os cfg w.cursor w.nudges fuel
        assertCalls := w.assertCalls + fuel
        nudges := w.nudges + (if cfg.mouse then fuel else 0) }) := by
  intro fuel
  induction fuel with
  | zero =>
    intro cycle w
    simp [runLoop, cyclesTrace]
  | succ fuel ih =>
    intro cycle w
    rw [runLoop_succ_noSig os cfg .never fuel cycle w (hA _) hI (by simp)
          (fun _ => by simp) (by simp),
        ih (cycle + 1) (cycleStep os cfg w)]
    rcases hm : cfg.mouse with _ | _ <;>
      simp [cycleStep, cyclesTrace, hm, List.append_assoc] <;>
      omega

/-- Master lemma for signal delivery inside the loop: if the signal arrives
at any stage of cycle `cycle + j` (within the fuel) the handler runs there,
`SystemExit 0` escapes the loop body, `allow_sleep` has been called exactly
once more, and no fatal error message was printed. -/
theorem runLoop_signal (os : OS) (cfg : Args) (stage : Stage)
    (hA : ∀ n, os.assertResult n ≠ 0) (hI : ¬cfg.interval < 0)
    (hstage : stage = .nudgeStage → cfg.mouse = true) :
    ∀ j fuel cycle w, j < fuel →
      ∃ t a m, runLoop os cfg (.inLoop (cycle + j) stage) fuel cycle w =
        (.exn (.systemExit 0), { w with
          trace := w.trace ++ t
          assertCalls := w.assertCalls + a
          nudges := w.nudges + m
          releaseCalls := w.releaseCalls + 1 })
        ∧ Event.print msgError ∉ t := by
  intro j
  induction j with
  | zero =>
    intro fuel cycle w hj
    obtain ⟨fuel, rfl⟩ : ∃ f, fuel = f + 1 := ⟨fuel - 1, by omega⟩
    cases stage with
    | reassert =>
      refine ⟨[.print msgRestoring, .setExecState ES_CONTINUOUS], 0, 0, ?_, by decide⟩
      simp only [Nat.add_zero]
      rw [runLoop_hit_reassert, on_exit_eq]
    | nudgeStage =>
      have hm := hstage rfl
      refine ⟨[.setExecState assertFlags, .print msgRestoring,
        .setExecState ES_CONTINUOUS], 1, 0, ?_, by decide⟩
      simp only [Nat.add_zero]
      rw [runLoop_hit_nudge os cfg fuel cycle w (hA _) hm, on_exit_eq]
      simp
    | sleeping =>
      refine ⟨cycleTrace os cfg w.nudges w.cursor ++
        [.print msgRestoring, .setExecState ES_CONTINUOUS],
        1, (if cfg.mouse then 1 else 0), ?_, ?_⟩
      · simp only [Nat.add_zero]
        rw [runLoop_hit_sleeping os cfg fuel cycle w (hA _) hI, on_exit_eq]
        simp [cycleStep, List.append_assoc]
      · intro hmem
        rcases List.mem_append.mp hmem with h | h
        · exact msgError_not_mem_cycleTrace os cfg _ _ h
        · revert h; decide
  | succ j ih =>
    intro fuel cycle w hj
    obtain ⟨fuel, rfl⟩ : ∃ f, fuel = f + 1 := ⟨fuel - 1, by omega⟩
    rw [runLoop_succ_noSig os cfg (.inLoop (cycle + (j + 1)) stage) fuel cycle w
      (hA _) hI (by intro h; injection h with h1 h2; omega)
      (fun _ => by intro h; injection h with h1 h2; omega)
      (by intro h; injection h with h1 h2; omega)]
    have hc : cycle + (j + 1) = (cycle + 1) + j := by omega
    rw [hc]
    obtain ⟨t, a, m, heq, hnm⟩ := ih fuel (cycle + 1) (cycleStep os cfg w) (by omega)
    refine ⟨cycleTrace os cfg w.nudges w.cursor ++ t, 1 + a,
      (if cfg.mouse then 1 else 0) + m, ?_, ?_⟩
    · rw [heq]
      simp [cycleStep, List.append_assoc, Nat.add_assoc]
    · intro hmem
      rcases List.mem_append.mp hmem with h | h
      · exact msgError_not_mem_cycleTrace os cfg _ _ h
      · exact hnm h

/-! ## Shape lemmas for `mainRun` -/

/-- The state just after a successful startup: assertion made, messages
printed, loop not yet entered. -/
def startWorld (cfg : Args) (x y : Int) : World :=
  { trace := startupTrace cfg, cursor := (x, y), assertCalls := 1, nudges := 0,
    releaseCalls := 0 }

/-- A signal before the loop: the handler prints, releases once and exits 0;
the `finally` block is never entered. -/
theorem mainRun_preLoop (os : OS) (cfg : Args) (fuel : Nat) (x y : Int) :
    mainRun os cfg .preLoop fuel x y =
      (.exited 0,
        { trace := [.print msgRestoring, .setExecState ES_CONTINUOUS],
          cursor := (x, y), assertCalls := 0, nudges := 0, releaseCalls := 1 }) := by
  simp [mainRun, on_exit_eq, initWorld]

/-- Startup failure of `prevent_sleep` (line 68): the `SystemExit 1`
propagates without entering the `try`, so no release happens. -/
theorem mainRun_startup_fail (os : OS) (cfg : Args) (sig : SigTime) (fuel : Nat)
    (x y : Int) (hA0 : os.assertResult 0 = 0) (hsig : sig ≠ .preLoop) :
    mainRun os cfg sig fuel x y =
      (.exited 1,
        { trace := [.setExecState assertFlags, .print msgError],
          cursor := (x, y), assertCalls := 1, nudges := 0, releaseCalls := 0 }) := by
  unfold mainRun
  rw [if_neg hsig,
    prevent_sleep_fail os (initWorld x y) (by simpa [initWorld] using hA0)]
  simp [initWorld]

/-- After a successful startup, `mainRun` is the `try`/`finally` around the
loop started from `startWorld`: fuel exhaustion leaves the loop running (the
`finally` has not run yet), an escaping exception runs `allow_sleep` and
then propagates. -/
theorem mainRun_startup_ok (os : OS) (cfg : Args) (sig : SigTime) (fuel : Nat)
    (x y : Int) (hA0 : os.assertResult 0 ≠ 0) (hsig : sig ≠ .preLoop) :
    mainRun os cfg sig fuel x y =
      (match runLoop os cfg sig fuel 0 (startWorld cfg x y) with
       | (.ok _, w4) => (.stillRunning, w4)
       | (.exn (.systemExit c), w4) => (.exited c, allow_sleep os w4)
       | (.exn .valueError, w4) => (.crashed .valueError, allow_sleep os w4)) := by
  unfold mainRun
  rw [if_neg hsig,
    prevent_sleep_ok os (initWorld x y) (by simpa [initWorld] using hA0)]
  rcases hm : cfg.mouse with _ | _ <;>
    simp [hm, initWorld, startWorld, startupTrace]

theorem mainRun_loop_ok (os : OS) (cfg : Args) (sig : SigTime) (fuel : Nat)
    (x y : Int) (u : Unit) (w4 : World)
    (hA0 : os.assertResult 0 ≠ 0) (hsig : sig ≠ .preLoop)
    (h : runLoop os cfg sig fuel 0 (startWorld cfg x y) = (.ok u, w4)) :
    mainRun os cfg sig fuel x y = (.stillRunning, w4) := by
  rw [mainRun_startup_ok os cfg sig fuel x y hA0 hsig, h]

theorem mainRun_loop_sysExit (os : OS) (cfg : Args) (sig : SigTime) (fuel : Nat)
    (x y : Int) (c : Nat) (w4 : World)
    (hA0 : os.assertResult 0 ≠ 0) (hsig : sig ≠ .preLoop)
    (h : runLoop os cfg sig fuel 0 (startWorld cfg x y) = (.exn (.systemExit c), w4)) :
    mainRun os cfg sig fuel x y = (.exited c, allow_sleep os w4) := by
  rw [mainRun_startup_ok os cfg sig fuel x y hA0 hsig, h]

theorem mainRun_loop_valueError (os : OS) (cfg : Args) (sig : SigTime) (fuel : Nat)
    (x y : Int) (w4 : World)
    (hA0 : os.assertResult 0 ≠ 0) (hsig : sig ≠ .preLoop)
    (h : runLoop os cfg sig fuel 0 (startWorld cfg x y) = (.exn .valueError, w4)) :
    mainRun os cfg sig fuel x y = (.crashed .valueError, allow_sleep os w4) := by
  rw [mainRun_startup_ok os cfg sig fuel x y hA0 hsig, h]

/-- With a negative interval the first `time.sleep` raises `ValueError`
right after the cycle body ran. -/
theorem runLoop_never_negative (os : OS) (cfg : Args) (fuel cycle : Nat)
    (w : World) (hA0 : os.assertResult w.assertCalls ≠ 0)
    (hI : cfg.interval < 0) :
    runLoop os cfg .never (fuel + 1) cycle w =
      (.exn .valueError, cycleStep os cfg w) := by
  conv_lhs => unfold runLoop
  rw [if_neg (by simp), prevent_sleep_ok os w hA0]
  rcases hm : cfg.mouse with _ | _ <;>
    simp [hm, hI, nudge_mouse_eq, cycleStep, cycleTrace, List.append_assoc]

/-- Every cycle block records the full-interval sleep. -/
theorem sleep_mem_cycleTrace (os : OS) (cfg : Args) (n : Nat) (c : Int × Int) :
    Event.sleepSecs (cfg.interval : Rat) ∈ cycleTrace os cfg n c := by
  unfold cycleTrace
  simp

theorem sleep_mem_cyclesTrace (os : OS) (cfg : Args) (c : Int × Int)
    (n fuel : Nat) :
    Event.sleepSecs (cfg.interval : Rat) ∈ cyclesTrace os cfg c n (fuel + 1) := by
  unfold cyclesTrace
  exact List.mem_append.mpr (Or.inl (sleep_mem_cycleTrace os cfg n c))

/-! ## Claims -/

/-- Claim C1, counterexample.  The spec says `release_awake()` runs exactly
once under a signal-triggered shutdown.  On the code, a SIGINT during the
sleep of the first cycle makes the handler call `allow_sleep` and then the
`finally` block call it again: two invocations, not one (exit status is
still 0). -/
theorem C1_counterexample :
    (mainRun osOK ⟨false, 60⟩ (.inLoop 0 .sleeping) 3 0 0).1 = .exited 0 ∧
    ((mainRun osOK ⟨false, 60⟩ (.inLoop 0 .sleeping) 3 0 0).2).releaseCalls = 2 ∧
    ((mainRun osOK ⟨false, 60⟩ (.inLoop 0 .sleeping) 3 0 0).2).releaseCalls ≠ 1 := by
  decide

/-- Claim C1, amended.  Under a signal-triggered shutdown, `allow_sleep` is
invoked exactly twice when the signal arrives at any stage of any loop
cycle (once by the handler, once by the `finally` block), and exactly once
when it arrives after handler installation but before the loop; in both
cases the process exits with status 0. -/
theorem C1_release_twice_in_loop (os : OS) (cfg : Args) (fuel k : Nat)
    (stage : Stage) (x y : Int)
    (hA : ∀ n, os.assertResult n ≠ 0) (hI : ¬cfg.interval < 0) (hk : k < fuel)
    (hstage : stage = .nudgeStage → cfg.mouse = true) :
    ((mainRun os cfg (.inLoop k stage) fuel x y).1 = .exited 0 ∧
      ((mainRun os cfg (.inLoop k stage) fuel x y).2).releaseCalls = 2) ∧
    ((mainRun os cfg .preLoop fuel x y).1 = .exited 0 ∧
      ((mainRun os cfg .preLoop fuel x y).2).releaseCalls = 1) := by
  constructor
  · obtain ⟨t, a, m, heq, -⟩ :=
      runLoop_signal os cfg stage hA hI hstage k fuel 0 (startWorld cfg x y) hk
    rw [Nat.zero_add] at heq
    rw [mainRun_loop_sysExit os cfg _ fuel x y 0 _ (hA 0) (by simp) heq]
    simp [allow_sleep_eq, startWorld]
  · rw [mainRun_preLoop]
    exact ⟨rfl, rfl⟩

theorem C1_release_twice_in_loop_witness :
    ((mainRun osOK ⟨false, 60⟩ (.inLoop 1 .reassert) 3 0 0).1 = .exited 0 ∧
      ((mainRun osOK ⟨false, 60⟩ (.inLoop 1 .reassert) 3 0 0).2).releaseCalls = 2) ∧
    ((mainRun osOK ⟨false, 60⟩ .preLoop 3 0 0).1 = .exited 0 ∧
      ((mainRun osOK ⟨false, 60⟩ .preLoop 3 0 0).2).releaseCalls = 1) :=
  C1_release_twice_in_loop osOK ⟨false, 60⟩ 3 1 .reassert 0 0
    (fun _ => Nat.one_ne_zero) (by decide) (by decide) (by decide)

/-- Claim C2, counterexample.  The spec says the assertion is released on
every exit path, including a fatal startup failure.  On the code, when the
initial `prevent_sleep` fails, `sys.exit(1)` is raised at line 68 — before
the `try`/`finally` — so the process exits 1 with `allow_sleep` never
called. -/
theorem C2_counterexample :
    (mainRun osFail ⟨false, 60⟩ .never 3 0 0).1 = .exited 1 ∧
    ((mainRun osFail ⟨false, 60⟩ .never 3 0 0).2).releaseCalls = 0 := by
  decide

/-- Claim C2, amended.  On every exit path reached after a successful startup
assertion — signal-triggered exit, in-loop fatal assertion failure, or the
uncaught `ValueError` of a negative-interval sleep — `allow_sleep` is
invoked at least once before the process exits; the fatal-startup-failure
path is the exception and releases nothing. -/
theorem C2_release_after_startup (os : OS) (cfg : Args) (sig : SigTime)
    (fuel : Nat) (x y : Int) (hA0 : os.assertResult 0 ≠ 0)
    (hrun : (mainRun os cfg sig fuel x y).1 ≠ .stillRunning) :
    1 ≤ ((mainRun os cfg sig fuel x y).2).releaseCalls := by
  by_cases hsig : sig = .preLoop
  · subst hsig
    rw [mainRun_preLoop]
  · rw [mainRun_startup_ok os cfg sig fuel x y hA0 hsig] at hrun ⊢
    rcases h : runLoop os cfg sig fuel 0 (startWorld cfg x y) with ⟨res, w4⟩
    cases res with
    | ok u =>
      rw [h] at hrun
      simp at hrun
    | exn e =>
      cases e with
      | systemExit c =>
        simp only [allow_sleep_eq]
        omega
      | valueError =>
        simp only [allow_sleep_eq]
        omega

theorem C2_release_after_startup_witness :
    1 ≤ ((mainRun osOK ⟨false, 60⟩ (.inLoop 0 .sleeping) 1 0 0).2).releaseCalls :=
  C2_release_after_startup osOK ⟨false, 60⟩ (.inLoop 0 .sleeping) 1 0 0
    (by decide) (by decide)

/-- Claim C3.  If the startup `prevent_sleep` reports failure, the process
exits with status 1; the trace is exactly one API attempt followed by the
error line — the loop is never entered and the call is not retried. -/
theorem C3_startup_failure_exits (os : OS) (cfg : Args) (sig : SigTime)
    (fuel : Nat) (x y : Int) (hA0 : os.assertResult 0 = 0)
    (hsig : sig ≠ .preLoop) :
    mainRun os cfg sig fuel x y =
      (.exited 1,
        { trace := [.setExecState assertFlags, .print msgError],
          cursor := (x, y), assertCalls := 1, nudges := 0, releaseCalls := 0 }) ∧
    Outcome.exitStatus (mainRun os cfg sig fuel x y).1 = some 1 := by
  have h := mainRun_startup_fail os cfg sig fuel x y hA0 hsig
  exact ⟨h, by rw [h]; rfl⟩

theorem C3_startup_failure_exits_witness :
    mainRun osFail ⟨false, 60⟩ .never 5 0 0 =
      (.exited 1,
        { trace := [.setExecState assertFlags, .print msgError],
          cursor := (0, 0), assertCalls := 1, nudges := 0, releaseCalls := 0 }) ∧
    Outcome.exitStatus (mainRun osFail ⟨false, 60⟩ .never 5 0 0).1 = some 1 :=
  C3_startup_failure_exits osFail ⟨false, 60⟩ .never 5 0 0 (by decide) (by decide)

/-- Claim C10.  `--interval` undergoes no positivity validation: for every
integer value the run reaches the loop and passes the value unchanged to
`time.sleep` (the sleep event carries exactly `cfg.interval`); when the
interval is negative, that sleep raises an uncaught `ValueError`, the
process terminates abnormally (interpreter exit status 1), and
`allow_sleep` still runs once via the `finally` block. -/
theorem C10_interval_unvalidated (os : OS) (cfg : Args) (fuel : Nat)
    (x y : Int) (hA : ∀ n, os.assertResult n ≠ 0) (hfuel : 1 ≤ fuel) :
    Event.sleepSecs (cfg.interval : Rat) ∈
      ((mainRun os cfg .never fuel x y).2).trace ∧
    (cfg.interval < 0 →
      (mainRun os cfg .never fuel x y).1 = .crashed .valueError ∧
      Outcome.exitStatus (mainRun os cfg .never fuel x y).1 = some 1 ∧
      ((mainRun os cfg .never fuel x y).2).releaseCalls = 1) := by
  obtain ⟨fuel, rfl⟩ : ∃ f, fuel = f + 1 := ⟨fuel - 1, by omega⟩
  by_cases hI : cfg.interval < 0
  · have hcrash :=
      runLoop_never_negative os cfg fuel 0 (startWorld cfg x y) (hA _) hI
    have hmain :=
      mainRun_loop_valueError os cfg .never (fuel + 1) x y _ (hA 0) (by simp) hcrash
    rw [hmain]
    refine ⟨?_, fun _ => ⟨rfl, rfl, by simp [allow_sleep_eq, cycleStep, startWorld]⟩⟩
    simp only [allow_sleep_eq, cycleStep, List.mem_append]
    exact Or.inl (Or.inr (sleep_mem_cycleTrace os cfg _ _))
  · have hloop := runLoop_never os cfg hA hI (fuel + 1) 0 (startWorld cfg x y)
    have hmain :=
      mainRun_loop_ok os cfg .never (fuel + 1) x y () _ (hA 0) (by simp) hloop
    rw [hmain]
    refine ⟨?_, fun h => absurd h hI⟩
    simp only [List.mem_append]
    exact Or.inr (sleep_mem_cyclesTrace os cfg _ _ _)

theorem C10_interval_unvalidated_witness :
    Event.sleepSecs ((-5 : Int) : Rat) ∈
      ((mainRun osOK ⟨false, -5⟩ .never 1 0 0).2).trace ∧
    (mainRun osOK ⟨false, -5⟩ .never 1 0 0).1 = .crashed .valueError ∧
    ((mainRun osOK ⟨false, -5⟩ .never 1 0 0).2).releaseCalls = 1 := by
  have h := C10_interval_unvalidated osOK ⟨false, -5⟩ 1 0 0
    (fun _ => Nat.one_ne_zero) (by decide)
  exact ⟨h.1, (h.2 (by decide)).1, (h.2 (by decide)).2.2⟩

/-! ## Further helper lemmas -/

/-- Without `--mouse` the loop never touches the nudge counter, whatever the
oracle, signal timing or interval. -/
theorem runLoop_nudges_mouseOff (os : OS) (cfg : Args) (sig : SigTime)
    (hm : cfg.mouse = false) :
    ∀ fuel cycle w, ((runLoop os cfg sig fuel cycle w).2).nudges = w.nudges := by
  intro fuel
  induction fuel with
  | zero => intro cycle w; rfl
  | succ fuel ih =>
    intro cycle w
    unfold runLoop
    by_cases h1 : sig = .inLoop cycle .reassert
    · rw [if_pos h1, on_exit_eq]
    · rw [if_neg h1]
      by_cases hA0 : os.assertResult w.assertCalls = 0
      · rw [prevent_sleep_fail os w hA0]
      · rw [prevent_sleep_ok os w hA0]
        simp only [hm, Bool.false_eq_true, if_false]
        by_cases hI : cfg.interval < 0
        · rw [if_pos hI]
        · rw [if_neg hI]
          by_cases h3 : sig = .inLoop cycle .sleeping
          · rw [if_pos h3, on_exit_eq]
          · rw [if_neg h3, ih]

/-- Warnings of failing nudges appear in the trace of the clean cycles. -/
theorem warn_mem_cyclesTrace (os : OS) (cfg : Args) (c : Int × Int)
    (hm : cfg.mouse = true) :
    ∀ fuel n k e, k < fuel → os.nudgeExn (n + k) = some e →
      Event.print (msgWarn e) ∈ cyclesTrace os cfg c n fuel := by
  intro fuel
  induction fuel with
  | zero => intro n k e hk _; exact absurd hk (Nat.not_lt_zero k)
  | succ fuel ih =>
    intro n k e hk hsome
    unfold cyclesTrace
    rcases k with _ | k
    · refine List.mem_append.mpr (Or.inl ?_)
      unfold cycleTrace
      rw [Nat.add_zero] at hsome
      simp only [hm, if_true]
      unfold nudgeTrace
      rw [hsome]
      simp
    · refine List.mem_append.mpr (Or.inr ?_)
      have hrec := ih (n + 1) k e (by omega)
        (by rw [show n + 1 + k = n + (k + 1) from by omega]; exact hsome)
      simpa [hm] using hrec

/-- When every nudge succeeds, the clean-cycle trace is `fuel` copies of the
oracle-free cycle block. -/
theorem cyclesTrace_success (os : OS) (cfg : Args) (c : Int × Int)
    (hok : ∀ n, os.nudgeExn n = none) :
    ∀ fuel n, cyclesTrace os cfg c n fuel =
      (List.replicate fuel (cycleEvents cfg c)).flatten := by
  intro fuel
  induction fuel with
  | zero => intro n; rfl
  | succ fuel ih =>
    intro n
    unfold cyclesTrace
    rw [List.replicate_succ, List.flatten_cons, ih]
    congr 1
    unfold cycleTrace cycleEvents nudgeTrace
    rw [hok n]

/-! ## Claims C4-C7 -/

/-- Claim C4.  With `--mouse` unset, `nudge_mouse` is never invoked: over any
number of cycles, any oracle and any signal timing, the nudge counter of
the final state is zero. -/
theorem C4_no_nudge_without_flag (os : OS) (cfg : Args) (sig : SigTime)
    (fuel : Nat) (x y : Int) (hm : cfg.mouse = false) :
    ((mainRun os cfg sig fuel x y).2).nudges = 0 := by
  by_cases hsig : sig = .preLoop
  · subst hsig
    rw [mainRun_preLoop]
  · by_cases hA0 : os.assertResult 0 = 0
    · rw [mainRun_startup_fail os cfg sig fuel x y hA0 hsig]
    · rw [mainRun_startup_ok os cfg sig fuel x y hA0 hsig]
      have hn := runLoop_nudges_mouseOff os cfg sig hm fuel 0 (startWorld cfg x y)
      rcases h : runLoop os cfg sig fuel 0 (startWorld cfg x y) with ⟨res, w4⟩
      rw [h] at hn
      cases res with
      | ok u => exact hn
      | exn e => cases e <;> simp [allow_sleep_eq] <;> exact hn

theorem C4_no_nudge_without_flag_witness :
    ((mainRun osOK ⟨false, 60⟩ .never 2 0 0).2).nudges = 0 :=
  C4_no_nudge_without_flag osOK ⟨false, 60⟩ .never 2 0 0 rfl

/-- Claim C5.  With `--mouse` set, `nudge_mouse` is invoked exactly once per
completed cycle (`fuel` completed cycles produce a nudge count of `fuel`);
and when the cursor calls of an invocation succeed, the nudge is an
idempotent round trip: the trace records the one-pixel move, the pause and
the restore, and the final cursor equals the cursor before the nudge. -/
theorem C5_nudge_per_cycle_roundtrip :
    (∀ (os : OS) (cfg : Args) (fuel : Nat) (x y : Int),
      (∀ n, os.assertResult n ≠ 0) → ¬cfg.interval < 0 → cfg.mouse = true →
      ((mainRun os cfg .never fuel x y).2).nudges = fuel) ∧
    (∀ (os : OS) (w : World), os.nudgeExn w.nudges = none →
      nudge_mouse os w =
        { w with
          trace := w.trace ++
            [.getCursorPos, .setCursorPos (w.cursor.1 + 1) w.cursor.2,
             .sleepSecs nudgePause, .setCursorPos w.cursor.1 w.cursor.2]
          nudges := w.nudges + 1 }) := by
  constructor
  · intro os cfg fuel x y hA hI hm
    have hloop := runLoop_never os cfg hA hI fuel 0 (startWorld cfg x y)
    have hmain := mainRun_loop_ok os cfg .never fuel x y () _ (hA 0) (by simp) hloop
    rw [hmain]
    simp [startWorld, hm]
  · intro os w h
    rw [nudge_mouse_eq]
    unfold nudgeTrace
    rw [h]

theorem C5_nudge_per_cycle_roundtrip_witness :
    ((mainRun osOK ⟨true, 1⟩ .never 2 5 7).2).nudges = 2 ∧
    (nudge_mouse osOK (initWorld 5 7)).cursor = (5, 7) := by
  have h := C5_nudge_per_cycle_roundtrip
  refine ⟨h.1 osOK ⟨true, 1⟩ 2 5 7 (fun _ => Nat.one_ne_zero) (by decide) rfl, ?_⟩
  rw [h.2 osOK (initWorld 5 7) rfl]
  rfl

/-- Claim C6.  A failing nudge is caught: with `--mouse` set and any pattern
of nudge failures, the run neither aborts nor changes shape — the outcome,
the nudge count (still one invocation per cycle, no retries) and the
re-assertion count are the same as with an always-succeeding nudger — and
each failure `e` of a reached cycle puts its warning line in the trace. -/
theorem C6_nudge_failure_contained (os : OS) (cfg : Args) (fuel : Nat)
    (x y : Int) (hA : ∀ n, os.assertResult n ≠ 0) (hI : ¬cfg.interval < 0)
    (hm : cfg.mouse = true) :
    (mainRun os cfg .never fuel x y).1 = .stillRunning ∧
    (mainRun os cfg .never fuel x y).1 =
      (mainRun { os with nudgeExn := fun _ => none } cfg .never fuel x y).1 ∧
    ((mainRun os cfg .never fuel x y).2).nudges =
      ((mainRun { os with nudgeExn := fun _ => none } cfg .never fuel x y).2).nudges ∧
    ((mainRun os cfg .never fuel x y).2).assertCalls =
      ((mainRun { os with nudgeExn := fun _ => none } cfg .never fuel x y).2).assertCalls ∧
    (∀ k e, k < fuel → os.nudgeExn k = some e →
      Event.print (msgWarn e) ∈ ((mainRun os cfg .never fuel x y).2).trace) := by
  have hloop := runLoop_never os cfg hA hI fuel 0 (startWorld cfg x y)
  have hmain := mainRun_loop_ok os cfg .never fuel x y () _ (hA 0) (by simp) hloop
  have hloop2 := runLoop_never { os with nudgeExn := fun _ => none } cfg hA hI
    fuel 0 (startWorld cfg x y)
  have hmain2 := mainRun_loop_ok { os with nudgeExn := fun _ => none } cfg .never
    fuel x y () _ (hA 0) (by simp) hloop2
  rw [hmain, hmain2]
  refine ⟨rfl, rfl, rfl, rfl, ?_⟩
  intro k e hk hsome
  simp only [List.mem_append]
  right
  exact warn_mem_cyclesTrace os cfg _ hm fuel 0 k e hk (by simpa using hsome)

theorem C6_nudge_failure_contained_witness :
    (mainRun osNudgeFail ⟨true, 1⟩ .never 2 5 7).1 = .stillRunning ∧
    ((mainRun osNudgeFail ⟨true, 1⟩ .never 2 5 7).2).nudges =
      ((mainRun { osNudgeFail with nudgeExn := fun _ => none } ⟨true, 1⟩
        .never 2 5 7).2).nudges ∧
    Event.print (msgWarn "no display") ∈
      ((mainRun osNudgeFail ⟨true, 1⟩ .never 2 5 7).2).trace := by
  have h := C6_nudge_failure_contained osNudgeFail ⟨true, 1⟩ 2 5 7
    (fun _ => Nat.one_ne_zero) (by decide) rfl
  exact ⟨h.1, h.2.2.1, h.2.2.2.2 0 "no display" (by decide) (by decide)⟩

/-- Claim C7.  Every loop iteration performs, in order: re-assert the awake
state, nudge only when `--mouse` is set, then request a sleep of exactly
the configured interval; the pattern repeats once per cycle, so the state
is asserted `fuel + 1` times over `fuel` cycles (startup plus one per
cycle, not just once at start), and `allow_sleep` is never called while
the loop runs. -/
theorem C7_cycle_order_and_interval (os : OS) (cfg : Args) (fuel : Nat)
    (x y : Int) (hA : ∀ n, os.assertResult n ≠ 0)
    (hNudge : ∀ n, os.nudgeExn n = none) (hI : 1 ≤ cfg.interval) :
    mainRun os cfg .never fuel x y =
      (.stillRunning,
        { trace := startupTrace cfg ++
            (List.replicate fuel (cycleEvents cfg (x, y))).flatten
          cursor := (x, y)
          assertCalls := fuel + 1
          nudges := if cfg.mouse then fuel else 0
          releaseCalls := 0 }) := by
  have hI' : ¬cfg.interval < 0 := by omega
  have hloop := runLoop_never os cfg hA hI' fuel 0 (startWorld cfg x y)
  have hmain := mainRun_loop_ok os cfg .never fuel x y () _ (hA 0) (by simp) hloop
  rw [hmain]
  rw [show cyclesTrace os cfg (startWorld cfg x y).cursor
      (startWorld cfg x y).nudges fuel =
      (List.replicate fuel (cycleEvents cfg (x, y))).flatten from
    cyclesTrace_success os cfg (x, y) hNudge fuel 0]
  simp [startWorld]
  omega

theorem C7_cycle_order_and_interval_witness :
    mainRun osOK ⟨true, 1⟩ .never 2 5 7 =
      (.stillRunning,
        { trace := startupTrace ⟨true, 1⟩ ++
            (List.replicate 2 (cycleEvents ⟨true, 1⟩ (5, 7))).flatten
          cursor := (5, 7)
          assertCalls := 3
          nudges := if (⟨true, 1⟩ : Args).mouse then 2 else 0
          releaseCalls := 0 }) :=
  C7_cycle_order_and_interval osOK ⟨true, 1⟩ 2 5 7
    (fun _ => Nat.one_ne_zero) (fun _ => rfl) (by decide)

/-! ## Flag discipline (C8) -/

/-- Every `SetThreadExecutionState` event of a trace carries either the
release flags (`ES_CONTINUOUS` alone, from `allow_sleep`) or the full
assertion flag set (from `prevent_sleep`). -/
def execFlagsOK (t : List Event) : Prop :=
  ∀ f, Event.setExecState f ∈ t → f = ES_CONTINUOUS ∨ f = assertFlags

theorem execFlagsOK_append {t1 t2 : List Event}
    (h1 : execFlagsOK t1) (h2 : execFlagsOK t2) : execFlagsOK (t1 ++ t2) := by
  intro f hf
  rcases List.mem_append.mp hf with h | h
  exacts [h1 f h, h2 f h]

theorem execFlagsOK_handlerTail :
    execFlagsOK [.print msgRestoring, .setExecState ES_CONTINUOUS] := by
  intro f hf
  simp at hf
  exact Or.inl hf

theorem execFlagsOK_assertFail :
    execFlagsOK [.setExecState assertFlags, .print msgError] := by
  intro f hf
  simp at hf
  exact Or.inr hf

theorem execFlagsOK_assertOnly : execFlagsOK [.setExecState assertFlags] := by
  intro f hf
  simp at hf
  exact Or.inr hf

theorem execFlagsOK_startupTrace (cfg : Args) :
    execFlagsOK (startupTrace cfg) := by
  intro f hf
  unfold startupTrace at hf
  rcases List.mem_append.mp hf with h | h
  · simp at h
    exact Or.inr h
  · rcases hm : cfg.mouse with _ | _ <;> rw [hm] at h <;> simp at h

theorem execFlagsOK_nudgeTrace (os : OS) (n : Nat) (c : Int × Int) :
    execFlagsOK (nudgeTrace os n c) := by
  intro f hf
  unfold nudgeTrace at hf
  cases h : os.nudgeExn n with
  | some e => rw [h] at hf; simp at hf
  | none => rw [h] at hf; simp at hf

theorem execFlagsOK_cycleTrace (os : OS) (cfg : Args) (n : Nat) (c : Int × Int) :
    execFlagsOK (cycleTrace os cfg n c) := by
  intro f hf
  unfold cycleTrace at hf
  rcases List.mem_cons.mp hf with h | h
  · exact Or.inr (Event.setExecState.inj h)
  · rcases List.mem_append.mp h with h | h
    · rcases hm : cfg.mouse with _ | _
      · rw [hm] at h; simp at h
      · rw [hm] at h
        simp only [if_true] at h
        exact execFlagsOK_nudgeTrace os n c f h
    · simp at h

/-- Whatever the oracle, signal timing and configuration, the loop only ever
appends events whose execution-state flags are `ES_CONTINUOUS` or the full
assertion flag set. -/
theorem runLoop_trace_flags (os : OS) (cfg : Args) (sig : SigTime) :
    ∀ fuel cycle w, ∃ t,
      ((runLoop os cfg sig fuel cycle w).2).trace = w.trace ++ t ∧
      execFlagsOK t := by
  intro fuel
  induction fuel with
  | zero =>
    intro cycle w
    exact ⟨[], by simp [runLoop], fun f hf => absurd hf (List.not_mem_nil _)⟩
  | succ fuel ih =>
    intro cycle w
    by_cases h1 : sig = .inLoop cycle .reassert
    · subst h1
      rw [runLoop_hit_reassert, on_exit_eq]
      exact ⟨_, rfl, execFlagsOK_handlerTail⟩
    · by_cases hA0 : os.assertResult w.assertCalls = 0
      · rw [runLoop_succ_assertFail os cfg sig fuel cycle w h1 hA0]
        exact ⟨_, rfl, execFlagsOK_assertFail⟩
      · by_cases h2' : cfg.mouse = true ∧ sig = .inLoop cycle .nudgeStage
        · obtain ⟨hm, h2⟩ := h2'
          subst h2
          rw [runLoop_hit_nudge os cfg fuel cycle w hA0 hm, on_exit_eq]
          refine ⟨[.setExecState assertFlags] ++
            [.print msgRestoring, .setExecState ES_CONTINUOUS], ?_,
            execFlagsOK_append execFlagsOK_assertOnly execFlagsOK_handlerTail⟩
          simp [List.append_assoc]
        · have h2 : cfg.mouse = true → sig ≠ .inLoop cycle .nudgeStage :=
            fun hm h => h2' ⟨hm, h⟩
          by_cases hI : cfg.interval < 0
          · rw [runLoop_succ_negative os cfg sig fuel cycle w h1 h2 hA0 hI]
            exact ⟨_, rfl, execFlagsOK_cycleTrace os cfg w.nudges w.cursor⟩
          · by_cases h3 : sig = .inLoop cycle .sleeping
            · subst h3
              rw [runLoop_hit_sleeping os cfg fuel cycle w hA0 hI, on_exit_eq]
              refine ⟨cycleTrace os cfg w.nudges w.cursor ++
                [.print msgRestoring, .setExecState ES_CONTINUOUS], ?_,
                execFlagsOK_append (execFlagsOK_cycleTrace os cfg w.nudges w.cursor)
                  execFlagsOK_handlerTail⟩
              simp [cycleStep, List.append_assoc]
            · rw [runLoop_succ_noSig os cfg sig fuel cycle w hA0 hI h1 h2 h3]
              obtain ⟨t, ht, hok⟩ := ih (cycle + 1) (cycleStep os cfg w)
              refine ⟨cycleTrace os cfg w.nudges w.cursor ++ t, ?_,
                execFlagsOK_append (execFlagsOK_cycleTrace os cfg w.nudges w.cursor)
                  hok⟩
              rw [ht]
              simp [cycleStep, List.append_assoc]

/-- Claim C8, counterexample.  The spec says the bitmask is continuous +
system-required + *optionally* display-required, display suppression being
configurable.  The code has no such configuration: the single flag set it
passes always contains `ES_DISPLAY_REQUIRED` — already the first API event
of a default (`--mouse` unset) run carries it — and differs from the
spec's display-not-requested flag set. -/
theorem C8_counterexample :
    assertFlags ≠ specAssertFlags false ∧
    assertFlags &&& ES_DISPLAY_REQUIRED ≠ 0 ∧
    ((mainRun osOK ⟨false, 60⟩ .never 1 0 0).2).trace.head? =
      some (.setExecState assertFlags) := by
  decide

/-- Claim C8, amended.  In every run, every `SetThreadExecutionState` event
carries either the release flags (`ES_CONTINUOUS` alone) or the single
assertion flag set, which unconditionally equals continuous +
system-required + display-required: system sleep and display sleep are
both always suppressed; no configuration controls the display bit. -/
theorem C8_flags_unconditional (os : OS) (cfg : Args) (sig : SigTime)
    (fuel : Nat) (x y : Int) :
    (∀ f, Event.setExecState f ∈ ((mainRun os cfg sig fuel x y).2).trace →
      f = ES_CONTINUOUS ∨ f = assertFlags) ∧
    assertFlags = specAssertFlags true ∧
    assertFlags &&& ES_SYSTEM_REQUIRED ≠ 0 ∧
    assertFlags &&& ES_DISPLAY_REQUIRED ≠ 0 := by
  refine ⟨?_, by decide, by decide, by decide⟩
  intro f hf
  by_cases hsig : sig = .preLoop
  · subst hsig
    rw [mainRun_preLoop] at hf
    simp at hf
    exact Or.inl hf
  · by_cases hA0 : os.assertResult 0 = 0
    · rw [mainRun_startup_fail os cfg sig fuel x y hA0 hsig] at hf
      simp at hf
      exact Or.inr hf
    · rw [mainRun_startup_ok os cfg sig fuel x y hA0 hsig] at hf
      obtain ⟨t, ht, hok⟩ := runLoop_trace_flags os cfg sig fuel 0 (startWorld cfg x y)
      rcases h : runLoop os cfg sig fuel 0 (startWorld cfg x y) with ⟨res, w4⟩
      rw [h] at ht hf
      have hw4 : w4.trace = startupTrace cfg ++ t := ht
      cases res with
      | ok u =>
        rw [hw4] at hf
        rcases List.mem_append.mp hf with h' | h'
        · exact execFlagsOK_startupTrace cfg f h'
        · exact hok f h'
      | exn e =>
        have hmem : Event.setExecState f ∈ (allow_sleep os w4).trace := by
          cases e with
          | systemExit c => exact hf
          | valueError => exact hf
        rw [allow_sleep_eq] at hmem
        rcases List.mem_append.mp hmem with h' | h'
        · rw [hw4] at h'
          rcases List.mem_append.mp h' with h'' | h''
          · exact execFlagsOK_startupTrace cfg f h''
          · exact hok f h''
        · simp at h'
          exact Or.inl h'

theorem C8_flags_unconditional_witness :
    (assertFlags = ES_CONTINUOUS ∨ assertFlags = assertFlags) ∧
    assertFlags = specAssertFlags true := by
  have h := C8_flags_unconditional osOK ⟨false, 60⟩ .never 1 0 0
  exact ⟨h.1 assertFlags (by decide), h.2.1⟩

/-! ## Release-call failure handling (C9) -/

/-- Recognizes console output events. -/
def isPrintEvent : Event → Bool
  | .print _ => true
  | _ => false

/-- The loop's behaviour does not depend on what the release call returns:
`allow_sleep` discards the result of `SetThreadExecutionState(ES_CONTINUOUS)`. -/
theorem runLoop_release_irrel (os : OS) (r : Nat → Nat) (cfg : Args)
    (sig : SigTime) :
    ∀ fuel cycle w,
      runLoop { os with releaseResult := r } cfg sig fuel cycle w =
        runLoop os cfg sig fuel cycle w := by
  intro fuel
  induction fuel with
  | zero => intro cycle w; rfl
  | succ fuel ih =>
    intro cycle w
    unfold runLoop
    simp only [ih]
    rfl

/-- The whole run, trace included, is unchanged when every release call
reports a different result. -/
theorem mainRun_release_irrel (os : OS) (r : Nat → Nat) (cfg : Args)
    (sig : SigTime) (fuel : Nat) (x y : Int) :
    mainRun { os with releaseResult := r } cfg sig fuel x y =
      mainRun os cfg sig fuel x y := by
  unfold mainRun
  simp only [runLoop_release_irrel]
  rfl

/-- Claim C9, counterexample.  The spec says a failing release call is logged
to the console.  On the code the result of
`SetThreadExecutionState(ES_CONTINUOUS)` is simply discarded: in a run
where both release calls fail (the oracle returns 0 for them), the run
still exits 0 and the console output is exactly the startup line and the
handler's restoring line — no failure is logged anywhere. -/
theorem C9_counterexample :
    (mainRun osReleaseFail ⟨false, 60⟩ (.inLoop 0 .sleeping) 1 0 0).1 = .exited 0 ∧
    ((mainRun osReleaseFail ⟨false, 60⟩ (.inLoop 0 .sleeping) 1 0 0).2).releaseCalls = 2 ∧
    ((mainRun osReleaseFail ⟨false, 60⟩ (.inLoop 0 .sleeping) 1 0 0).2).trace.filter
        isPrintEvent =
      [.print msgActive, .print msgRestoring] := by
  decide

/-- Claim C9, amended.  A failure of the release call is ignored entirely —
its result never influences the run (nothing is logged about it) — and it
is never fatal: under a signal-triggered shutdown the process exits with
status 0 and no error line is ever printed, whatever the release calls
return. -/
theorem C9_release_failure_silent (os : OS) (cfg : Args) (fuel k : Nat)
    (stage : Stage) (x y : Int) (r : Nat → Nat)
    (hA : ∀ n, os.assertResult n ≠ 0) (hI : ¬cfg.interval < 0) (hk : k < fuel)
    (hstage : stage = .nudgeStage → cfg.mouse = true) :
    mainRun { os with releaseResult := r } cfg (.inLoop k stage) fuel x y =
      mainRun os cfg (.inLoop k stage) fuel x y ∧
    (mainRun os cfg (.inLoop k stage) fuel x y).1 = .exited 0 ∧
    Event.print msgError ∉
      ((mainRun os cfg (.inLoop k stage) fuel x y).2).trace := by
  refine ⟨mainRun_release_irrel os r cfg _ fuel x y, ?_⟩
  obtain ⟨t, a, m, heq, hnm⟩ :=
    runLoop_signal os cfg stage hA hI hstage k fuel 0 (startWorld cfg x y) hk
  rw [Nat.zero_add] at heq
  rw [mainRun_loop_sysExit os cfg _ fuel x y 0 _ (hA 0) (by simp) heq]
  refine ⟨rfl, ?_⟩
  rw [allow_sleep_eq]
  intro hmem
  have hmem2 : Event.print msgError ∈ (startupTrace cfg ++ t) ++
      [Event.setExecState ES_CONTINUOUS] := hmem
  rcases List.mem_append.mp hmem2 with h | h
  · rcases List.mem_append.mp h with h' | h'
    · exact msgError_not_mem_startupTrace cfg h'
    · exact hnm h'
  · simp at h

theorem C9_release_failure_silent_witness :
    mainRun { osReleaseFail with releaseResult := fun _ => 0 } ⟨false, 60⟩
        (.inLoop 0 .sleeping) 2 0 0 =
      mainRun osReleaseFail ⟨false, 60⟩ (.inLoop 0 .sleeping) 2 0 0 ∧
    (mainRun osReleaseFail ⟨false, 60⟩ (.inLoop 0 .sleeping) 2 0 0).1 = .exited 0 ∧
    Event.print msgError ∉
      ((mainRun osReleaseFail ⟨false, 60⟩ (.inLoop 0 .sleeping) 2 0 0).2).trace :=
  C9_release_failure_silent osReleaseFail ⟨false, 60⟩ 2 0 .sleeping 0 0
    (fun _ => 0) (fun _ => Nat.one_ne_zero) (by decide) (by decide) (by decide)

end KeepAlive
